import Mathlib

/-!
Verification of the EDMA traversal step executor
(`src/db/src/process/exec.rs`) against its specification.

The executor's own logic is translated directly from `exec.rs`.
Collaborating pieces that live outside the provided sources (the gremlin
value model, the accumulator `ExecutionResult`, the `VertexRepository`,
the `StepCollector` and the step-classification helpers of `util`) are
modelled from the specification; each such definition carries a doc
comment starting with `Modelled from the spec`.

Rust panics (any `unwrap()` on a failed operation and any
`unimplemented!()` arm) are modelled by the `RunResult.panicked` outcome:
the computation stops and no state survives.
-/

namespace Edma

/-- Modelled from the spec (gremlin crate): terminator token denoting the
shape of the value the traversal currently yields. -/
inductive TerminatorToken where
  | Null
  | Vertex
  | Edge
  | VertexProperty
  | Int64
deriving DecidableEq

/-- Modelled from the spec (gremlin crate): property-cardinality marker. -/
inductive Cardinality where
  | single
  | many
  | setKind
deriving DecidableEq

/-- Modelled from the spec: scalar value stored inside a vertex property
list. -/
inductive GScalar where
  | null
  | boolean : Bool → GScalar
  | int64 : Int → GScalar
  | str : String → GScalar
deriving DecidableEq

/-- Modelled from the spec: a graph vertex — id, label, and a property
map from key to ordered list of values. -/
structure Vertex where
  id : Nat
  label : String
  properties : List (String × List GScalar)
deriving DecidableEq

/-- Modelled from the spec (gremlin crate): the tagged union of runtime
values flowing through the steps. -/
inductive GValue where
  | null
  | boolean : Bool → GValue
  | int64 : Int → GValue
  | string : String → GValue
  | list : List GValue → GValue
  | vertex : Vertex → GValue
  | edge : Nat → GValue
  | vertexProperty : GValue
  | cardinality : Cardinality → GValue
  | terminator : TerminatorToken → GValue

/-- Modelled from the spec (gremlin `FromGValue` for `List`): fallible
extraction of the list payload; any other tag is a conversion failure. -/
def from_gvalue_list : GValue → Option (List GValue)
  | GValue.list xs => some xs
  | _ => none

/-- Modelled from the spec (gremlin `FromGValue` for `Vertex`). -/
def from_gvalue_vertex : GValue → Option Vertex
  | GValue.vertex v => some v
  | _ => none

/-- Modelled from the spec (gremlin `FromGValue` for `String`). -/
def from_gvalue_string : GValue → Option String
  | GValue.string s => some s
  | _ => none

/-- Modelled from the spec (gremlin `GValue::is_cardinality`): whether a
value is a cardinality marker. -/
def GValue.is_cardinality : GValue → Bool
  | GValue.cardinality _ => true
  | _ => false

/-- Intermediate result of one step: the producing operator's name and
the produced value (`IxResult` of the db crate). -/
structure IxResult where
  source : String
  value : GValue

/-- Constructor mirroring `IxResult::new`. -/
def IxResult.new (s : String) (v : GValue) : IxResult := ⟨s, v⟩

/-- Modelled from the spec: the accumulator with per-origin named slots. -/
structure ExecutionResult where
  vertices : IxResult
  new_vertices : IxResult
  edges : IxResult
  new_edges : IxResult
  other : IxResult

/-- Modelled from the spec: the default accumulator; every slot starts
with an empty list so that accumulating steps (`addV` appends to the list
already living in `new_vertices`) find a list on first use. -/
def ExecutionResult.default : ExecutionResult :=
  ⟨⟨"", GValue.list []⟩, ⟨"", GValue.list []⟩, ⟨"", GValue.list []⟩,
    ⟨"", GValue.list []⟩, ⟨"", GValue.list []⟩⟩

/-- Modelled from the spec: slot selection keyed by the operator name
that streams into it (`V` → vertices, `addV` → new_vertices, `E` → edges,
`addE` → new_edges, anything else → other). -/
def ExecutionResult.get_from_source (r : ExecutionResult) (source : String) : IxResult :=
  match source with
  | "V" => r.vertices
  | "E" => r.edges
  | "addV" => r.new_vertices
  | "addE" => r.new_edges
  | _ => r.other

/-- Modelled from the spec: committed state of the storage backend seen
through the vertex repository — an id counter, the stored vertices and
the standalone property records created by the repository's new-property
operation. `commit_fails` models a backend whose commit reports an
optimistic-concurrency conflict (spec section 4.2): while it is set,
every commit against the store fails. -/
structure Store where
  next_id : Nat
  verts : List Vertex
  prop_records : List (List GValue)
  commit_fails : Bool

/-- Modelled from the spec: a read-write transaction is a working
snapshot of the store; committing publishes the snapshot, dropping the
transaction discards it. -/
structure Tx where
  snapshot : Store

/-- Modelled from the spec (`mut_tx`): open a read-write transaction. -/
def Store.mut_tx (s : Store) : Tx := ⟨s⟩

/-- Modelled from the spec (`Transaction::commit`): publish the snapshot,
or fail when the backend reports a commit conflict. -/
def Tx.commit (t : Tx) : Option Store :=
  if t.snapshot.commit_fails then none else some t.snapshot

/-- Modelled from the spec: label taken from the leading argument of a
vertex-creation step, when one is supplied. -/
def arg_label (args : List GValue) : String :=
  match args.head? with
  | some (GValue.string s) => s
  | _ => ""

/-- Modelled from the spec (`create_vertex`): the vertex a creation step
builds — a freshly allocated id, the label from the arguments, and no
properties yet. -/
def make_vertex (next_id : Nat) (args : List GValue) : Vertex :=
  ⟨next_id, arg_label args, []⟩

/-- Modelled from the spec: scalar view of a property argument value. -/
def to_scalar : GValue → GScalar
  | GValue.boolean b => GScalar.boolean b
  | GValue.int64 n => GScalar.int64 n
  | GValue.string s => GScalar.str s
  | _ => GScalar.null

/-- Modelled from the spec: key and value parsed from the arguments of a
`property(key, value)` step. -/
def parse_prop (args : List GValue) : String × GScalar :=
  (match args.head? with
    | some (GValue.string s) => s
    | _ => "",
   match args[1]? with
    | some g => to_scalar g
    | none => GScalar.null)

/-- Modelled from the spec: single-cardinality property write — the
key's value list is replaced (or created). -/
def put_prop (ps : List (String × List GScalar)) (k : String) (v : GScalar) :
    List (String × List GScalar) :=
  if ps.any (fun p => p.1 == k) then
    ps.map (fun p => if p.1 == k then (k, [v]) else p)
  else
    ps ++ [(k, [v])]

/-- Modelled from the spec (`set_property` result): the vertex after a
property write. The vertex id is untouched. -/
def apply_prop (cur : Vertex) (args : List GValue) : Vertex :=
  let kv := parse_prop args
  { cur with properties := put_prop cur.properties kv.1 kv.2 }

/-- Modelled from the spec: the placeholder vertex the repository's
new-property operation returns, carrying the freshly written property. -/
def new_property_vertex (args : List GValue) : Vertex :=
  let kv := parse_prop args
  ⟨0, "", [(kv.1, [kv.2])]⟩

namespace VertexRepository

/-- Modelled from the spec (`read_vertices`): scan the stored vertices.
The claims only exercise the unfiltered read, so the optional id/label
filter arguments are not modelled. -/
def v (t : Tx) (_args : List GValue) : List GValue :=
  t.snapshot.verts.map GValue.vertex

/-- Modelled from the spec (`create_vertex`): allocate a new id and
write the encoded record into the transaction. -/
def new_v (t : Tx) (args : List GValue) : Tx × Vertex :=
  let vtx := make_vertex t.snapshot.next_id args
  (⟨{ t.snapshot with
        next_id := t.snapshot.next_id + 1,
        verts := t.snapshot.verts ++ [vtx] }⟩, vtx)

/-- Modelled from the spec (`set_property`): read-modify-write of the
targeted vertex inside the transaction, returning the updated vertex. -/
def property (cur : Vertex) (t : Tx) (args : List GValue) : Tx × Vertex :=
  let updated := apply_prop cur args
  (⟨{ t.snapshot with
        verts := t.snapshot.verts.map (fun w => if w.id = cur.id then updated else w) }⟩,
   updated)

/-- Modelled from the spec: the repository's new-property operation used
when a property step runs against an empty vertex stream — it creates a
new standalone property record in storage. -/
def new_property (t : Tx) (args : List GValue) : Tx × Vertex :=
  (⟨{ t.snapshot with prop_records := t.snapshot.prop_records ++ [args] }⟩,
   new_property_vertex args)

/-- Modelled from the spec (`read_properties`): the vertex augmented
with its stored property set — a read-only lookup by id. -/
def properties (s : Store) (cur : Vertex) (_args : List GValue) : Vertex :=
  match s.verts.find? (fun w => w.id == cur.id) with
  | some w => w
  | none => cur

end VertexRepository

/-- Modelled from the spec (util): the streaming source steps. -/
def is_streaming_source_step (s : String) : Bool :=
  s == "V" || s == "E" || s == "addV" || s == "addE"

/-- Modelled from the spec (util): the reducing barrier steps. -/
def is_reducing_barrier_step (s : String) : Bool :=
  s == "count"

/-- One bytecode instruction: operator name and ordered arguments. -/
structure Instruction where
  operator : String
  args : List GValue

/-- Outcome of running embedded Rust code that may panic: `ok` carries
the value, `panicked` models a Rust `unwrap()` on a failure or an
`unimplemented!()` arm — the computation aborts and no state survives. -/
inductive RunResult (α : Type) where
  | ok : α → RunResult α
  | panicked : RunResult α

/-- The step executor's state (`StepExecutor` of `exec.rs`): the bytecode
program, the accumulator, the live terminator, the name of the operator
that produced the current stream, the storage reached through the vertex
repository, and the iteration cursor. -/
structure StepExecutor where
  bytecode : List Instruction
  result : ExecutionResult
  terminator : TerminatorToken
  source : String
  store : Store
  iter_index : Nat

/-- Mirrors `StepExecutor::new`: default accumulator, `Null` terminator,
empty source, cursor at zero. -/
def StepExecutor.new (bytecode : List Instruction) (store : Store) : StepExecutor :=
  ⟨bytecode, ExecutionResult.default, TerminatorToken.Null, "", store, 0⟩

/-- Conversion loop of `raw_list_from_source` instantiated at `Vertex`
(the only instantiation the executor uses): every element must convert
to a vertex (a failure is a panic upstream, hence `none` here), and the
original values whose vertex satisfies the filter are kept in order. -/
def raw_vertex_loop (cond : Option (Vertex → Bool)) : List GValue → Option (List GValue)
  | [] => some []
  | item :: rest =>
    match from_gvalue_vertex item with
    | none => none
    | some value =>
      match raw_vertex_loop cond rest with
      | none => none
      | some tail =>
        match cond with
        | some f => some (if f value then item :: tail else tail)
        | none => some (item :: tail)

/-- Conversion loop of `list_from_source` instantiated at `Vertex`: the
parsed vertices satisfying the filter, in order. -/
def vertex_loop (cond : Option (Vertex → Bool)) : List GValue → Option (List Vertex)
  | [] => some []
  | item :: rest =>
    match from_gvalue_vertex item with
    | none => none
    | some value =>
      match vertex_loop cond rest with
      | none => none
      | some tail =>
        match cond with
        | some f => some (if f value then value :: tail else tail)
        | none => some (value :: tail)

/-- Mirrors `StepExecutor::raw_list_from_source::<Vertex>`. -/
def StepExecutor.raw_list_from_source (ex : StepExecutor) (source : String)
    (cond : Option (Vertex → Bool)) : Option (List GValue) :=
  match from_gvalue_list (ex.result.get_from_source source).value with
  | none => none
  | some l => raw_vertex_loop cond l

/-- Mirrors `StepExecutor::list_from_source::<Vertex>`. -/
def StepExecutor.list_from_source (ex : StepExecutor) (source : String)
    (cond : Option (Vertex → Bool)) : Option (List Vertex) :=
  match from_gvalue_list (ex.result.get_from_source source).value with
  | none => none
  | some l => vertex_loop cond l

/-- Mirrors `StepExecutor::source_value::<List>` — the only instantiation
the executor uses. -/
def StepExecutor.source_list (ex : StepExecutor) (source : String) : Option (List GValue) :=
  from_gvalue_list (ex.result.get_from_source source).value

/-- Mirrors `StepExecutor::v`: read the stored vertices through a fresh
transaction (dropped unread — a read-only use), set terminator `Vertex`. -/
def StepExecutor.v (ex : StepExecutor) (args : List GValue) : StepExecutor × IxResult :=
  let tx := ex.store.mut_tx
  let result := VertexRepository.v tx args
  ({ ex with terminator := TerminatorToken.Vertex },
   IxResult.new "V" (GValue.list result))

/-- Mirrors `StepExecutor::e`: terminator `Edge` only, no storage
interaction. -/
def StepExecutor.e (ex : StepExecutor) (_ids : List GValue) : StepExecutor × IxResult :=
  ({ ex with terminator := TerminatorToken.Edge }, IxResult.new "E" GValue.null)

/-- Mirrors `StepExecutor::add_v`: create one vertex, append it to the
list currently held in the `new_vertices` slot, commit, set terminator
`Vertex`. A conversion or commit failure is a panic. -/
def StepExecutor.add_v (ex : StepExecutor) (args : List GValue) :
    RunResult (StepExecutor × IxResult) :=
  let tx := ex.store.mut_tx
  let created := VertexRepository.new_v tx args
  match ex.source_list "addV" with
  | none => RunResult.panicked
  | some vertices =>
    let vertices := vertices ++ [GValue.vertex created.2]
    let ex := { ex with result := { ex.result with
      new_vertices := { ex.result.new_vertices with value := GValue.list vertices } } }
    match created.1.commit with
    | none => RunResult.panicked
    | some store =>
      RunResult.ok
        ({ ex with store := store, terminator := TerminatorToken.Vertex },
         IxResult.new "addV" (GValue.list vertices))

/-- Mirrors `StepExecutor::add_e`: terminator `Edge` only. -/
def StepExecutor.add_e (ex : StepExecutor) (_labels : List GValue) : StepExecutor × IxResult :=
  ({ ex with terminator := TerminatorToken.Edge }, IxResult.new "addE" GValue.null)

/-- Mirrors `StepExecutor::property_with_cardinality`: a schema-level
cardinality declaration — no state change, `Null` result. -/
def StepExecutor.property_with_cardinality (ex : StepExecutor) (_args : List GValue) :
    StepExecutor × IxResult :=
  (ex, IxResult.new "property" GValue.null)

/-- Loop body of the non-empty branch of `vertex_property`: apply the
property to the current vertex through the transaction and push the
updated vertex onto the results. -/
def prop_fold_step (args : List GValue) (acc : Tx × List GValue) (cur : Vertex) :
    Tx × List GValue :=
  let r := VertexRepository.property cur acc.1 args
  (r.1, acc.2 ++ [GValue.vertex r.2])

/-- Mirrors `StepExecutor::vertex_property`: with an empty vertex stream
the repository's new-property operation runs; otherwise the property is
applied to every vertex in the stream; one commit covers the step. -/
def StepExecutor.vertex_property (ex : StepExecutor) (args : List GValue) :
    RunResult (StepExecutor × IxResult) :=
  let tx := ex.store.mut_tx
  match ex.list_from_source ex.source none with
  | none => RunResult.panicked
  | some vertices =>
    let pr :=
      if vertices.isEmpty then
        let r := VertexRepository.new_property tx args
        (r.1, [GValue.vertex r.2])
      else
        vertices.foldl (prop_fold_step args) (tx, ([] : List GValue))
    match pr.1.commit with
    | none => RunResult.panicked
    | some store =>
      RunResult.ok ({ ex with store := store },
        IxResult.new "vertex_property" (GValue.list pr.2))

/-- Mirrors `StepExecutor::add_vertex_property`: fold the property into
the most recently created vertex of the `new_vertices` stream. -/
def StepExecutor.add_vertex_property (ex : StepExecutor) (args : List GValue) :
    RunResult (StepExecutor × IxResult) :=
  let tx := ex.store.mut_tx
  match ex.source_list ex.source with
  | none => RunResult.panicked
  | some vertices =>
    match vertices.getLast? with
    | none => RunResult.panicked
    | some last =>
      match from_gvalue_vertex last with
      | none => RunResult.panicked
      | some vtx =>
        let r := VertexRepository.property vtx tx args
        let value := GValue.vertex r.2
        let vertices := vertices.dropLast ++ [value]
        let ex := { ex with result := { ex.result with
          new_vertices := { ex.result.new_vertices with value := GValue.list vertices } } }
        match r.1.commit with
        | none => RunResult.panicked
        | some store =>
          RunResult.ok ({ ex with store := store },
            IxResult.new "vertex_property" value)

/-- Mirrors `StepExecutor::vertices_properties`: fetch stored properties
for every vertex of the stream; the `vertices` slot is rewritten only
when the stream is non-empty; terminator becomes `VertexProperty`. -/
def StepExecutor.vertices_properties (ex : StepExecutor) (args : List GValue) :
    RunResult (StepExecutor × IxResult) :=
  match ex.list_from_source ex.source none with
  | none => RunResult.panicked
  | some vertices =>
    let result := vertices.map
      (fun cur => GValue.vertex (VertexRepository.properties ex.store cur args))
    let ex :=
      if vertices.isEmpty then ex
      else { ex with result := { ex.result with
        vertices := { ex.result.vertices with value := GValue.list result } } }
    RunResult.ok ({ ex with terminator := TerminatorToken.VertexProperty },
      IxResult.new "properties" (GValue.list result))

/-- Mirrors `StepExecutor::new_vertex_properties`: fetch the stored
properties of the last-created vertex; the single result is written into
the `vertices` slot; terminator becomes `VertexProperty`. -/
def StepExecutor.new_vertex_properties (ex : StepExecutor) (args : List GValue) :
    RunResult (StepExecutor × IxResult) :=
  match ex.source_list ex.source with
  | none => RunResult.panicked
  | some new_vertices =>
    match new_vertices.getLast? with
    | none => RunResult.panicked
    | some cur =>
      match from_gvalue_vertex cur with
      | none => RunResult.panicked
      | some vtx =>
        let vp := VertexRepository.properties ex.store vtx args
        let result := GValue.vertex vp
        let ex := { ex with result := { ex.result with
          vertices := { ex.result.vertices with value := result } } }
        RunResult.ok ({ ex with terminator := TerminatorToken.VertexProperty },
          IxResult.new "properties" result)

/-- Mirrors `StepExecutor::properties`: dispatch on the active source;
any other source is an `unimplemented!()` panic. -/
def StepExecutor.properties (ex : StepExecutor) (args : List GValue) :
    RunResult (StepExecutor × IxResult) :=
  match ex.source with
  | "V" => ex.vertices_properties args
  | "addV" => ex.new_vertex_properties args
  | _ => RunResult.panicked

/-- Mirrors `StepExecutor::property`: a leading cardinality marker makes
the step a schema-level declaration; otherwise dispatch on the active
source. An empty argument list is an `unwrap()` panic. -/
def StepExecutor.property (ex : StepExecutor) (args : List GValue) :
    RunResult (StepExecutor × IxResult) :=
  match args.head? with
  | none => RunResult.panicked
  | some first =>
    if first.is_cardinality then RunResult.ok (ex.property_with_cardinality args)
    else
      match ex.source with
      | "V" => ex.vertex_property args
      | "addV" => ex.add_vertex_property args
      | _ => RunResult.panicked

/-- Mirrors `StepExecutor::count`: snapshot the current terminator as the
step's value and reset the live terminator to `Int64`; no storage
interaction. -/
def StepExecutor.count (ex : StepExecutor) (_args : List GValue) : StepExecutor × IxResult :=
  let streamed := GValue.terminator ex.terminator
  ({ ex with terminator := TerminatorToken.Int64 }, IxResult.new "count" streamed)

/-- Mirrors `StepExecutor::has_label`: when an argument is present,
filter both the `vertices` and the `new_vertices` slots by label
equality, writing the filtered lists back; with no argument nothing is
filtered. -/
def StepExecutor.has_label (ex : StepExecutor) (args : List GValue) :
    RunResult (StepExecutor × IxResult) :=
  match args.head? with
  | none => RunResult.ok (ex, IxResult.new "has_label" GValue.null)
  | some arg =>
    match from_gvalue_string arg with
    | none => RunResult.panicked
    | some label =>
      match ex.raw_list_from_source "V" (some (fun v => v.label == label)) with
      | none => RunResult.panicked
      | some vertices =>
        let ex := { ex with result := { ex.result with
          vertices := { ex.result.vertices with value := GValue.list vertices } } }
        match ex.raw_list_from_source "addV" (some (fun v => v.label == label)) with
        | none => RunResult.panicked
        | some new_vertices =>
          let ex := { ex with result := { ex.result with
            new_vertices := { ex.result.new_vertices with value := GValue.list new_vertices } } }
          RunResult.ok (ex, IxResult.new "has_label" GValue.null)

/-- Mirrors `StepExecutor::has_id`: `unimplemented!()`. -/
def StepExecutor.has_id (_ex : StepExecutor) (_args : List GValue) :
    RunResult (StepExecutor × IxResult) :=
  RunResult.panicked

/-- Mirrors `StepExecutor::process_streaming_step`: dispatch a streaming
source step, store its result in the slot of its origin and record the
operator as the active source. An unrecognized streaming operator is an
`unimplemented!()` panic. -/
def StepExecutor.process_streaming_step (ex : StepExecutor) (step : Instruction) :
    RunResult StepExecutor :=
  match step.operator with
  | "V" =>
    let r := ex.v step.args
    RunResult.ok { r.1 with result := { r.1.result with vertices := r.2 }, source := "V" }
  | "E" =>
    let r := ex.e step.args
    RunResult.ok { r.1 with result := { r.1.result with edges := r.2 }, source := "E" }
  | "addV" =>
    match ex.add_v step.args with
    | RunResult.panicked => RunResult.panicked
    | RunResult.ok r =>
      RunResult.ok { r.1 with result := { r.1.result with new_vertices := r.2 }, source := "addV" }
  | "addE" =>
    let r := ex.add_e step.args
    RunResult.ok { r.1 with result := { r.1.result with new_edges := r.2 }, source := "addE" }
  | _ => RunResult.panicked

/-- Mirrors `StepExecutor::process_reducing_barrier_step`: only `count`
is recognized; its result lands in the `other` slot. -/
def StepExecutor.process_reducing_barrier_step (ex : StepExecutor) (step : Instruction) :
    RunResult StepExecutor :=
  match step.operator with
  | "count" =>
    let r := ex.count step.args
    RunResult.ok { r.1 with result := { r.1.result with other := r.2 } }
  | _ => RunResult.panicked

/-- Mirrors `StepExecutor::process_step`: elementwise steps; the result
lands in the `other` slot; an unrecognized operator is an
`unimplemented!()` panic. -/
def StepExecutor.process_step (ex : StepExecutor) (step : Instruction) :
    RunResult StepExecutor :=
  let run : RunResult (StepExecutor × IxResult) :=
    match step.operator with
    | "property" => ex.property step.args
    | "properties" => ex.properties step.args
    | "count" => RunResult.ok (ex.count step.args)
    | "hasLabel" => ex.has_label step.args
    | "hasIds" => ex.has_id step.args
    | _ => RunResult.panicked
  match run with
  | RunResult.panicked => RunResult.panicked
  | RunResult.ok r => RunResult.ok { r.1 with result := { r.1.result with other := r.2 } }

/-- Mirrors the classification match inside `StepExecutor::execute`:
streaming source, reducing barrier, or elementwise. -/
def StepExecutor.process_instr (ex : StepExecutor) (step : Instruction) :
    RunResult StepExecutor :=
  if is_streaming_source_step step.operator then ex.process_streaming_step step
  else if is_reducing_barrier_step step.operator then ex.process_reducing_barrier_step step
  else ex.process_step step

/-- The step loop of `StepExecutor::execute`, in program order. -/
def StepExecutor.run_steps : StepExecutor → List Instruction → RunResult StepExecutor
  | ex, [] => RunResult.ok ex
  | ex, step :: rest =>
    match ex.process_instr step with
    | RunResult.panicked => RunResult.panicked
    | RunResult.ok ex2 => ex2.run_steps rest

/-- Modelled from the spec (section 4.5, Result Collector): select the
slot of the active source and return its value in the shape the live
terminator demands — for `Int64` the numeric length of the wrapped list,
for element terminators the accumulated value itself; a `Null`
terminator has no matching value. -/
def StepCollector.collect (ex : StepExecutor) : Option GValue :=
  match ex.terminator with
  | TerminatorToken.Null => none
  | TerminatorToken.Int64 =>
    match (ex.result.get_from_source ex.source).value with
    | GValue.list xs => some (GValue.int64 xs.length)
    | _ => none
  | _ => some (ex.result.get_from_source ex.source).value

/-- Mirrors `StepExecutor::execute`: run every step of the bytecode in
order, then collect; a collection failure is an `unwrap()` panic. -/
def StepExecutor.execute (ex : StepExecutor) : RunResult (StepExecutor × GValue) :=
  match ex.run_steps ex.bytecode with
  | RunResult.panicked => RunResult.panicked
  | RunResult.ok ex2 =>
    match StepCollector.collect ex2 with
    | none => RunResult.panicked
    | some result => RunResult.ok (ex2, result)

/-- Mirrors `StepExecutor::done` (the generic conversion `T::from_gvalue`
is modelled at `T = GValue`, the identity). -/
def StepExecutor.done (ex : StepExecutor) : RunResult (StepExecutor × GValue) :=
  ex.execute

/-- Mirrors `StepExecutor::to_list`: re-execute, then convert the
collected value to a list. -/
def StepExecutor.to_list (ex : StepExecutor) : RunResult (StepExecutor × List GValue) :=
  match ex.execute with
  | RunResult.panicked => RunResult.panicked
  | RunResult.ok r =>
    match from_gvalue_list r.2 with
    | none => RunResult.panicked
    | some l => RunResult.ok (r.1, l)

/-- Mirrors `StepExecutor::next`: re-derive the list, return the element
at the cursor and advance it, or nothing once the cursor reaches the
list length. -/
def StepExecutor.next (ex : StepExecutor) : RunResult (StepExecutor × Option GValue) :=
  match ex.to_list with
  | RunResult.panicked => RunResult.panicked
  | RunResult.ok r =>
    let ex2 := r.1
    if h : ex2.iter_index < r.2.length then
      RunResult.ok ({ ex2 with iter_index := ex2.iter_index + 1 },
        some (r.2.get ⟨ex2.iter_index, h⟩))
    else
      RunResult.ok (ex2, none)

/-- Mirrors `StepExecutor::has_next`: re-derive the list and compare
`iter_index + 1` with its length — exactly the comparison written in the
source. -/
def StepExecutor.has_next (ex : StepExecutor) : RunResult (StepExecutor × Bool) :=
  match ex.to_list with
  | RunResult.panicked => RunResult.panicked
  | RunResult.ok r =>
    RunResult.ok (r.1, decide (r.1.iter_index + 1 < r.2.length))

/-- State reached by a successful `execute` call, for concrete
evaluation. -/
def execute_state (ex : StepExecutor) : Option StepExecutor :=
  match ex.execute with
  | RunResult.ok r => some r.1
  | RunResult.panicked => none

/-- State reached by a successful `next` call, for concrete evaluation. -/
def next_state (ex : StepExecutor) : Option StepExecutor :=
  match ex.next with
  | RunResult.ok r => some r.1
  | RunResult.panicked => none

/-- Value returned by a successful `next` call. -/
def next_value (ex : StepExecutor) : Option (Option GValue) :=
  match ex.next with
  | RunResult.ok r => some r.2
  | RunResult.panicked => none

/-- State reached by a successful `to_list` call. -/
def to_list_state (ex : StepExecutor) : Option StepExecutor :=
  match ex.to_list with
  | RunResult.ok r => some r.1
  | RunResult.panicked => none

/-- List returned by a successful `to_list` call. -/
def to_list_value (ex : StepExecutor) : Option (List GValue) :=
  match ex.to_list with
  | RunResult.ok r => some r.2
  | RunResult.panicked => none

/-- Answer of a successful `has_next` call. -/
def has_next_value (ex : StepExecutor) : Option Bool :=
  match ex.has_next with
  | RunResult.ok r => some r.2
  | RunResult.panicked => none

/-- C1: a bytecode program with an instruction whose operator is not one
of `V, E, addV, addE, property, properties, count, hasLabel, hasIds`
does NOT fail with a structured `UnsupportedOperator` error: the
executor reaches the `unimplemented!()` arm of `process_step` and
panics (here: `RunResult.panicked`), aborting the traversal. Evaluated
at the failing input, a one-instruction program with operator "foo". -/
theorem C1_unknown_operator_panics :
    (StepExecutor.new [⟨"foo", []⟩] ⟨0, [], [], false⟩).execute = RunResult.panicked :=
  rfl

/-- C2: when the storage commit of a mutating step fails (here a backend
reporting an optimistic-concurrency conflict, `commit_fails = true`),
the executor does not roll back and return a structured error: `add_v`
unwraps the failed commit and panics. The same program against a
healthy backend commits one vertex, showing the failure is what
triggers the panic. -/
theorem C2_storage_failure_panics :
    (StepExecutor.new [⟨"addV", []⟩] ⟨0, [], [], true⟩).execute = RunResult.panicked ∧
    (execute_state (StepExecutor.new [⟨"addV", []⟩] ⟨0, [], [], false⟩)).map
        (fun e => e.store.verts.length) = some 1 :=
  ⟨rfl, rfl⟩

/-- C3: the result-consuming operations re-execute the whole program,
mutating steps included. After building an executor over the program
`[addV]` with an empty store, the first `next` call leaves one vertex in
storage and the second `next` call leaves two: `next` re-runs `addV`
each time, contradicting the claim that consuming operations leave
storage unchanged. -/
theorem C3_next_reexecutes_mutating_step :
    ((next_state (StepExecutor.new [⟨"addV", []⟩] ⟨0, [], [], false⟩)).map
        (fun e => e.store.verts.length) = some 1) ∧
    (((next_state (StepExecutor.new [⟨"addV", []⟩] ⟨0, [], [], false⟩)).bind next_state).map
        (fun e => e.store.verts.length) = some 2) :=
  ⟨rfl, rfl⟩

/-- C4: executing `addV` from any state whose `new_vertices` slot holds
a list appends exactly one freshly created vertex (id = the store's id
counter) to that list and to the stored vertices, sets the terminator to
`Vertex` and the active source to `addV`; executing `addV` twice
accumulates two vertices with distinct ids. -/
theorem C4_addv_appends_and_accumulates (bc : List Instruction) (v0 e0 ne0 o0 : IxResult)
    (nsrc : String) (vs : List GValue) (args args2 : List GValue)
    (tok : TerminatorToken) (src : String) (idx nid : Nat)
    (vts : List Vertex) (precs : List (List GValue)) :
    (StepExecutor.process_instr
        ⟨bc, ⟨v0, ⟨nsrc, GValue.list vs⟩, e0, ne0, o0⟩, tok, src, ⟨nid, vts, precs, false⟩, idx⟩
        ⟨"addV", args⟩
      = RunResult.ok
        ⟨bc, ⟨v0, IxResult.new "addV" (GValue.list (vs ++ [GValue.vertex (make_vertex nid args)])),
            e0, ne0, o0⟩,
          TerminatorToken.Vertex, "addV",
          ⟨nid + 1, vts ++ [make_vertex nid args], precs, false⟩, idx⟩) ∧
    (StepExecutor.run_steps
        ⟨bc, ⟨v0, ⟨nsrc, GValue.list vs⟩, e0, ne0, o0⟩, tok, src, ⟨nid, vts, precs, false⟩, idx⟩
        [⟨"addV", args⟩, ⟨"addV", args2⟩]
      = RunResult.ok
        ⟨bc, ⟨v0, IxResult.new "addV" (GValue.list
              ((vs ++ [GValue.vertex (make_vertex nid args)])
                ++ [GValue.vertex (make_vertex (nid + 1) args2)])),
            e0, ne0, o0⟩,
          TerminatorToken.Vertex, "addV",
          ⟨nid + 2, (vts ++ [make_vertex nid args]) ++ [make_vertex (nid + 1) args2],
            precs, false⟩, idx⟩) ∧
    (make_vertex nid args).id ≠ (make_vertex (nid + 1) args2).id :=
  ⟨rfl, rfl, Nat.ne_of_lt (Nat.lt_succ_self nid)⟩

/-- C5: `has_next` is off by one. After `to_list` on a `V()` program
over a store holding one vertex, the collected list has one item and the
cursor sits at zero, yet `has_next` answers `false` (the source compares
`iter_index + 1 < len`) while `next` still returns an item — refuting
the claim that `has_next` is true exactly while the cursor is strictly
below the list length. -/
theorem C5_has_next_off_by_one :
    ((to_list_value (StepExecutor.new [⟨"V", []⟩] ⟨1, [⟨0, "person", []⟩], [], false⟩)).map
        List.length = some 1) ∧
    ((to_list_state (StepExecutor.new [⟨"V", []⟩] ⟨1, [⟨0, "person", []⟩], [], false⟩)).bind
        has_next_value = some false) ∧
    (((to_list_state (StepExecutor.new [⟨"V", []⟩] ⟨1, [⟨0, "person", []⟩], [], false⟩)).bind
        next_value).map Option.isSome = some true) :=
  ⟨rfl, rfl, rfl⟩

/-- C6: a `count` instruction stores a snapshot of the current
terminator (wrapped as a value) into the `other` slot and sets the live
terminator to `Int64`; the whole-state equality shows every other part
of the executor state, the store included, is untouched. -/
theorem C6_count_snapshots_terminator (ex : StepExecutor) (args : List GValue) :
    ex.process_instr ⟨"count", args⟩
      = RunResult.ok { ex with
          terminator := TerminatorToken.Int64,
          result := { ex.result with
            other := IxResult.new "count" (GValue.terminator ex.terminator) } } :=
  rfl

/-- C8: a `property` instruction whose first argument is a cardinality
marker only records a `Null` result in the `other` slot: the store and
the `vertices` and `new_vertices` slots are unchanged (whole-state
equality). -/
theorem C8_property_cardinality_no_mutation (ex : StepExecutor) (c : Cardinality)
    (rest : List GValue) :
    ex.process_instr ⟨"property", GValue.cardinality c :: rest⟩
      = RunResult.ok { ex with
          result := { ex.result with other := IxResult.new "property" GValue.null } } :=
  rfl

/-- C9: `hasLabel` with an empty argument list filters nothing and
raises no error: only the `other` slot receives the step's `Null`
result; the `vertices` and `new_vertices` slots and the store are
unchanged (whole-state equality). -/
theorem C9_has_label_empty_args_noop (ex : StepExecutor) :
    ex.process_instr ⟨"hasLabel", []⟩
      = RunResult.ok { ex with
          result := { ex.result with other := IxResult.new "has_label" GValue.null } } :=
  rfl
/-- On a list of vertex values, the raw conversion-and-filter loop keeps
exactly the values whose vertex satisfies the predicate, in order. -/
theorem raw_vertex_loop_filter (p : Vertex → Bool) (vs : List Vertex) :
    raw_vertex_loop (some p) (vs.map GValue.vertex)
      = some ((vs.filter p).map GValue.vertex) := by
  induction vs with
  | nil => rfl
  | cons v rest ih =>
    simp only [List.map_cons, raw_vertex_loop, from_gvalue_vertex, ih, List.filter_cons]
    by_cases h : p v <;> simp [h]

/-- On a list of vertex values, the unfiltered conversion loop recovers
the vertices themselves. -/
theorem vertex_loop_roundtrip (vs : List Vertex) :
    vertex_loop none (vs.map GValue.vertex) = some vs := by
  induction vs with
  | nil => rfl
  | cons v rest ih =>
    simp only [List.map_cons, vertex_loop, from_gvalue_vertex, ih]

/-- C7: `hasLabel(label)` rewrites both element slots: the `vertices`
and `new_vertices` slots are each replaced by the order-preserving
sublist of their vertices whose label equals the argument (an empty
sublist when nothing matches, with no error); the store and the other
state components are unchanged. -/
theorem C7_has_label_filters_both_slots (bc : List Instruction) (store : Store)
    (tok : TerminatorToken) (src : String) (idx : Nat) (s1 s2 : String)
    (e0 ne0 o0 : IxResult) (vs nvs : List Vertex) (label : String) :
    StepExecutor.process_instr
        ⟨bc, ⟨⟨s1, GValue.list (vs.map GValue.vertex)⟩,
            ⟨s2, GValue.list (nvs.map GValue.vertex)⟩, e0, ne0, o0⟩,
          tok, src, store, idx⟩
        ⟨"hasLabel", [GValue.string label]⟩
      = RunResult.ok
        ⟨bc, ⟨⟨s1, GValue.list ((vs.filter (fun v => v.label == label)).map GValue.vertex)⟩,
            ⟨s2, GValue.list ((nvs.filter (fun v => v.label == label)).map GValue.vertex)⟩,
            e0, ne0, IxResult.new "has_label" GValue.null⟩,
          tok, src, store, idx⟩ := by
  simp only [StepExecutor.process_instr, is_streaming_source_step, is_reducing_barrier_step,
    StepExecutor.process_step, StepExecutor.has_label, List.head?, from_gvalue_string,
    StepExecutor.raw_list_from_source, ExecutionResult.get_from_source, from_gvalue_list,
    raw_vertex_loop_filter, IxResult.new]
  rfl
/-- Folding the property-application step over a stream that is exactly
the suffix of stored vertices still to process (the prefix `done`
already updated) updates every remaining vertex in place, provided the
vertex ids are pairwise distinct. -/
theorem fold_property_verts (args : List GValue) (todo : List Vertex) :
    ∀ (done : List Vertex) (acc : List GValue) (nid : Nat)
      (precs : List (List GValue)) (cf : Bool),
    ((done ++ todo).map Vertex.id).Nodup →
    todo.foldl (prop_fold_step args)
        (⟨⟨nid, done.map (fun v => apply_prop v args) ++ todo, precs, cf⟩⟩, acc)
      = (⟨⟨nid, (done ++ todo).map (fun v => apply_prop v args), precs, cf⟩⟩,
         acc ++ todo.map (fun v => GValue.vertex (apply_prop v args))) := by
  induction todo with
  | nil =>
    intro done acc nid precs cf _
    simp
  | cons cur rest ih =>
    intro done acc nid precs cf hnd
    have hnd' : (((done ++ [cur]) ++ rest).map Vertex.id).Nodup := by
      rw [← List.append_cons]
      exact hnd
    have hmapnd : (done.map Vertex.id ++ cur.id :: rest.map Vertex.id).Nodup := by
      rw [← List.map_cons, ← List.map_append]
      exact hnd
    obtain ⟨h1, h2, hdisj⟩ := List.nodup_append.mp hmapnd
    obtain ⟨hnotin, h3⟩ := List.nodup_cons.mp h2
    have hdone : ∀ a ∈ done, ¬ a.id = cur.id := fun a ha heq =>
      hdisj (List.mem_map_of_mem _ ha) (by simp [heq])
    have hrest : ∀ a ∈ rest, ¬ a.id = cur.id := fun a ha heq =>
      hnotin (heq ▸ List.mem_map_of_mem _ ha)
    have hstep : prop_fold_step args
        (⟨⟨nid, done.map (fun v => apply_prop v args) ++ cur :: rest, precs, cf⟩⟩, acc) cur
      = (⟨⟨nid, (done.map (fun v => apply_prop v args) ++ cur :: rest).map
            (fun w => if w.id = cur.id then apply_prop cur args else w), precs, cf⟩⟩,
         acc ++ [GValue.vertex (apply_prop cur args)]) := rfl
    have hmap : (done.map (fun v => apply_prop v args) ++ cur :: rest).map
        (fun w => if w.id = cur.id then apply_prop cur args else w)
      = (done ++ [cur]).map (fun v => apply_prop v args) ++ rest := by
      rw [List.map_append, List.map_cons, List.map_map]
      have e1 : done.map
          ((fun w => if w.id = cur.id then apply_prop cur args else w)
            ∘ (fun v => apply_prop v args))
          = done.map (fun v => apply_prop v args) :=
        List.map_congr_left (fun a ha => by
          simp only [Function.comp_apply]
          exact if_neg (hdone a ha))
      have e2 : rest.map (fun w => if w.id = cur.id then apply_prop cur args else w) = rest := by
        have hcongr := List.map_congr_left
          (f := fun w => if w.id = cur.id then apply_prop cur args else w) (g := id)
          (fun a ha => by
            show (if a.id = cur.id then apply_prop cur args else a) = id a
            rw [if_neg (hrest a ha)]
            rfl)
        rw [hcongr, List.map_id]
      rw [e1, e2, if_pos rfl, List.map_append]
      simp
    rw [List.foldl_cons, hstep, hmap,
      ih (done ++ [cur]) (acc ++ [GValue.vertex (apply_prop cur args)]) nid precs cf hnd',
      ← List.append_cons]
    simp

/-- C10: a `property(key, value)` step with active source `V`. With an
empty vertex stream the repository's new-property operation runs and
commits — storage gains a new property record instead of staying
unchanged. With a non-empty stream (here the stored vertices themselves,
with pairwise-distinct ids), the property is applied to every vertex of
the stream within the step's single transaction, and no property record
is created. -/
theorem C10_vertex_property_empty_vs_nonempty (bc : List Instruction)
    (tok : TerminatorToken) (idx nid : Nat) (s1 : String) (nv0 e0 ne0 o0 : IxResult)
    (precs : List (List GValue)) (averts : List Vertex) (k : String)
    (restargs : List GValue) (v0 : Vertex) (vrest : List Vertex)
    (hnd : ((v0 :: vrest).map Vertex.id).Nodup) :
    (StepExecutor.process_instr
        ⟨bc, ⟨⟨s1, GValue.list []⟩, nv0, e0, ne0, o0⟩, tok, "V",
          ⟨nid, averts, precs, false⟩, idx⟩
        ⟨"property", GValue.string k :: restargs⟩
      = RunResult.ok
        ⟨bc, ⟨⟨s1, GValue.list []⟩, nv0, e0, ne0,
            IxResult.new "vertex_property"
              (GValue.list [GValue.vertex (new_property_vertex (GValue.string k :: restargs))])⟩,
          tok, "V", ⟨nid, averts, precs ++ [GValue.string k :: restargs], false⟩, idx⟩) ∧
    (StepExecutor.process_instr
        ⟨bc, ⟨⟨s1, GValue.list ((v0 :: vrest).map GValue.vertex)⟩, nv0, e0, ne0, o0⟩, tok, "V",
          ⟨nid, v0 :: vrest, precs, false⟩, idx⟩
        ⟨"property", GValue.string k :: restargs⟩
      = RunResult.ok
        ⟨bc, ⟨⟨s1, GValue.list ((v0 :: vrest).map GValue.vertex)⟩, nv0, e0, ne0,
            IxResult.new "vertex_property"
              (GValue.list ((v0 :: vrest).map
                (fun v => GValue.vertex (apply_prop v (GValue.string k :: restargs)))))⟩,
          tok, "V",
          ⟨nid, (v0 :: vrest).map (fun v => apply_prop v (GValue.string k :: restargs)),
            precs, false⟩, idx⟩) := by
  refine ⟨rfl, ?_⟩
  have hfold := fold_property_verts (GValue.string k :: restargs) (v0 :: vrest) [] [] nid precs
    false (by simpa using hnd)
  simp only [List.map_nil, List.nil_append] at hfold
  simp only [StepExecutor.process_instr, is_streaming_source_step, is_reducing_barrier_step,
    StepExecutor.process_step, StepExecutor.property, List.head?, GValue.is_cardinality,
    StepExecutor.vertex_property, StepExecutor.list_from_source, ExecutionResult.get_from_source,
    from_gvalue_list, vertex_loop_roundtrip, List.isEmpty_cons, Store.mut_tx, IxResult.new]
  rw [hfold]
  rfl

/-- Witness for C10 at a concrete input: one stored vertex with id 1,
property key "k"; the hypothesis (distinct vertex ids) holds and both
branches of the claim evaluate as stated. -/
theorem C10_vertex_property_witness :
    (([(⟨1, "a", []⟩ : Vertex)].map Vertex.id).Nodup) ∧
    ((StepExecutor.process_instr
        ⟨[], ⟨⟨"V", GValue.list []⟩, ⟨"", GValue.list []⟩, ⟨"", GValue.list []⟩,
            ⟨"", GValue.list []⟩, ⟨"", GValue.list []⟩⟩, TerminatorToken.Null, "V",
          ⟨5, [], [], false⟩, 0⟩
        ⟨"property", [GValue.string "k"]⟩
      = RunResult.ok
        ⟨[], ⟨⟨"V", GValue.list []⟩, ⟨"", GValue.list []⟩, ⟨"", GValue.list []⟩,
            ⟨"", GValue.list []⟩,
            IxResult.new "vertex_property"
              (GValue.list [GValue.vertex (new_property_vertex [GValue.string "k"])])⟩,
          TerminatorToken.Null, "V", ⟨5, [], [[GValue.string "k"]], false⟩, 0⟩) ∧
    (StepExecutor.process_instr
        ⟨[], ⟨⟨"V", GValue.list ([(⟨1, "a", []⟩ : Vertex)].map GValue.vertex)⟩,
            ⟨"", GValue.list []⟩, ⟨"", GValue.list []⟩, ⟨"", GValue.list []⟩,
            ⟨"", GValue.list []⟩⟩, TerminatorToken.Null, "V",
          ⟨5, [⟨1, "a", []⟩], [], false⟩, 0⟩
        ⟨"property", [GValue.string "k"]⟩
      = RunResult.ok
        ⟨[], ⟨⟨"V", GValue.list ([(⟨1, "a", []⟩ : Vertex)].map GValue.vertex)⟩,
            ⟨"", GValue.list []⟩, ⟨"", GValue.list []⟩, ⟨"", GValue.list []⟩,
            IxResult.new "vertex_property"
              (GValue.list ([(⟨1, "a", []⟩ : Vertex)].map
                (fun v => GValue.vertex (apply_prop v [GValue.string "k"]))))⟩,
          TerminatorToken.Null, "V",
          ⟨5, [(⟨1, "a", []⟩ : Vertex)].map (fun v => apply_prop v [GValue.string "k"]),
            [], false⟩, 0⟩)) :=
  ⟨by decide,
   C10_vertex_property_empty_vs_nonempty [] TerminatorToken.Null 0 5 "V"
     ⟨"", GValue.list []⟩ ⟨"", GValue.list []⟩ ⟨"", GValue.list []⟩ ⟨"", GValue.list []⟩
     [] [] "k" [] ⟨1, "a", []⟩ [] (by decide)⟩

end Edma
